import Mathlib

/-!
Verification of the Alyx Python function runtime
(`runtimes/python/alyx_functions/__init__.py` and `runtimes/python/executor.py`)
against its natural-language specification.

The embedding is shallow: Python values are modelled by the inductive
`PyValue`, dictionaries by association lists with Python's first-match
`dict.get` semantics, exceptions by `Option`/`Except`, and the mutable
per-invocation log list by explicit state passing (the handler returns the
entries it appended through the logger, in order).  Interpreter effects that
live outside the repository (the filesystem, `importlib`, `datetime`,
`time.time`, the HTTP socket) are abstracted as explicit parameters: a
storage oracle for the loader, a timestamp argument for the logger, a
duration argument for the timer, and the parsed JSON body for the HTTP
handler.
-/

/-- A Python value as the runtime manipulates it: JSON-style data plus the
distinction Python itself draws between `bool`, `int` and `float`.  `float`
carries no payload: the runtime only ever inspects a float's type
(`isinstance`), never its magnitude, so the model covers the type alone. -/
inductive PyValue where
  | none
  | bool (b : Bool)
  | int (n : Int)
  | float
  | str (s : String)
  | list (xs : List PyValue)
  | dict (kvs : List (String × PyValue))

/-- Python's `value is None` test. -/
def PyValue.isNone : PyValue → Bool
  | .none => true
  | _ => false

/-- A Python dictionary with string keys, as an association list (Python
dictionaries have unique keys; lookup takes the first binding). -/
abbrev PyDict := List (String × PyValue)

/-- Python truthiness (`if x:`): `None`, `False`, zero, and empty
strings/lists/dicts are falsy.  A payload-less `float` is treated as truthy
(the runtime never branches on a float's truthiness). -/
def pyTruthy : PyValue → Bool
  | .none => false
  | .bool b => b
  | .int n => n != 0
  | .float => true
  | .str s => s ≠ ""
  | .list xs => ¬ xs.isEmpty
  | .dict kvs => ¬ kvs.isEmpty

/-- Python's `d.get(key, default)` on a dictionary. -/
def pyGet (d : PyDict) (key : String) (default : PyValue) : PyValue :=
  (List.lookup key d).getD default

/-- The name Python's `type(v).__name__` gives each of the modelled values. -/
def pyTypeName : PyValue → String
  | .none => "NoneType"
  | .bool _ => "bool"
  | .int _ => "int"
  | .float => "float"
  | .str _ => "str"
  | .list _ => "list"
  | .dict _ => "dict"

/-- The description of the `AttributeError` raised when `.get` is called on a
value that is not a dictionary (`str(AttributeError)` text). -/
def attrFaultMsg (v : PyValue) : String :=
  "\x27" ++ pyTypeName v ++ "\x27 object has no attribute \x27get\x27"

/-- Python's `v.get(key, default)` on an arbitrary value: an `AttributeError`
unless `v` is a dictionary. -/
def pyGetItem (v : PyValue) (key : String) (default : PyValue) :
    Except String PyValue :=
  match v with
  | .dict kvs => .ok ((List.lookup key kvs).getD default)
  | other => .error (attrFaultMsg other)

mutual
/-- Python's `repr` on the modelled values (string escaping inside `repr` of a
string is not modelled; the payload-less `float` renders as a fixed numeral). -/
def pyRepr : PyValue → String
  | .none => "None"
  | .bool true => "True"
  | .bool false => "False"
  | .int n => toString n
  | .float => "0.0"
  | .str s => "\x27" ++ s ++ "\x27"
  | .list xs => "[" ++ String.intercalate ", " (pyReprList xs) ++ "]"
  | .dict kvs => "\x7b" ++ String.intercalate ", " (pyReprPairs kvs) ++ "\x7d"

/-- `repr` of the elements of a list, in order. -/
def pyReprList : List PyValue → List String
  | [] => []
  | x :: xs => pyRepr x :: pyReprList xs

/-- `repr` of the key-value pairs of a dictionary, in order. -/
def pyReprPairs : List (String × PyValue) → List String
  | [] => []
  | (k, v) :: kvs => ("\x27" ++ k ++ "\x27: " ++ pyRepr v) :: pyReprPairs kvs
end

/-- Python's `str` / f-string interpolation: a string interpolates as itself,
every other value as its `repr`-style rendering. -/
def pyStr (v : PyValue) : String :=
  match v with
  | .str s => s
  | other => pyRepr other

/-- `FunctionError` (`__init__.py` lines 187-193): the error a function (or the
validator) raises, carrying `code`, `message` and optional `details`
(`details` is a dictionary or `None`, kept as a `PyValue`). -/
structure FunctionError where
  code : String
  message : String
  details : PyValue

/-- `LogEntry` (`__init__.py` lines 31-38).  The timestamp is produced by
`datetime.utcnow()`, outside the repository; it is carried as data. -/
structure LogEntry where
  level : String
  message : String
  data : PyValue
  timestamp : String

namespace Logger

/-- `Logger._log` (`__init__.py` lines 47-48): append one entry with the given
level; a falsy `data` argument (`None` or an empty dict, via `data or ` an
empty dict) becomes an empty dictionary.  The timestamp argument abstracts
`datetime.utcnow()`. -/
def append (logs : List LogEntry) (level message : String) (data : PyValue)
    (ts : String) : List LogEntry :=
  logs ++ [⟨level, message, if pyTruthy data then data else .dict [], ts⟩]

/-- `Logger.debug`. -/
def debug (logs : List LogEntry) (message : String) (data : PyValue)
    (ts : String) : List LogEntry :=
  append logs "debug" message data ts

/-- `Logger.info`. -/
def info (logs : List LogEntry) (message : String) (data : PyValue)
    (ts : String) : List LogEntry :=
  append logs "info" message data ts

/-- `Logger.warn`. -/
def warn (logs : List LogEntry) (message : String) (data : PyValue)
    (ts : String) : List LogEntry :=
  append logs "warn" message data ts

/-- `Logger.error`. -/
def error (logs : List LogEntry) (message : String) (data : PyValue)
    (ts : String) : List LogEntry :=
  append logs "error" message data ts

end Logger

/-! ## Input validation (`validate_input`, `__init__.py` lines 228-272) -/

/-- The `required` rule (lines 233-238): fires when `rules.get("required")` is
truthy and the field's value is `None` (absent or explicitly null). -/
def requiredCheck (fieldName : String) (rules : PyDict) (value : PyValue) :
    Option FunctionError :=
  if pyTruthy (pyGet rules "required" .none) && value.isNone then
    some ⟨"VALIDATION_ERROR",
      "Field \x27" ++ fieldName ++ "\x27 is required",
      .dict [("field", .str fieldName)]⟩
  else none

/-- The keys of `type_map` (lines 243-249). -/
def typeMapHas (t : String) : Bool :=
  t == "string" || t == "number" || t == "boolean" || t == "array" || t == "object"

/-- Python's `isinstance(value, type_map[t])` for the five mapped types.  In
Python `bool` is a subclass of `int`, so a boolean is an instance of the
`"number"` pair `(int, float)`; a boolean is not an instance of `str`, `list`
or `dict`. -/
def pyIsInstance (value : PyValue) (t : String) : Bool :=
  match t, value with
  | "string", .str _ => true
  | "number", .int _ => true
  | "number", .float => true
  | "number", .bool _ => true
  | "boolean", .bool _ => true
  | "array", .list _ => true
  | "object", .dict _ => true
  | _, _ => false

/-- The `type` rule (lines 240-256): skipped when `rules.get("type")` is falsy
or is not a key of `type_map`; otherwise fires when the value is not an
instance of the mapped type.  (A non-string truthy `type` value is not a
`type_map` key, so the check is skipped, as `type_map.get` returns `None`.) -/
def typeCheck (fieldName : String) (rules : PyDict) (value : PyValue) :
    Option FunctionError :=
  let expectedType := pyGet rules "type" .none
  if pyTruthy expectedType then
    match expectedType with
    | .str t =>
      if typeMapHas t ∧ ¬ pyIsInstance value t then
        some ⟨"VALIDATION_ERROR",
          "Field \x27" ++ fieldName ++ "\x27 must be of type " ++ t,
          .dict [("field", .str fieldName), ("expected", .str t)]⟩
      else none
    | _ => none
  else none

/-- Python's `len(s) < bound` for the rule values the comparison is defined
for: integers, and `True` (which compares as `1`, `bool` being an `int`).
Other rule values would raise `TypeError` in Python and are not modelled. -/
def pyLenLt (s : String) (bound : PyValue) : Bool :=
  match bound with
  | .int n => (s.length : Int) < n
  | .bool true => (s.length : Int) < 1
  | _ => false

/-- Python's `len(s) > bound`, same conventions as `pyLenLt`. -/
def pyLenGt (s : String) (bound : PyValue) : Bool :=
  match bound with
  | .int n => n < (s.length : Int)
  | .bool true => (1 : Int) < (s.length : Int)
  | _ => false

/-- The `min_length` rule (lines 258-264): fires when `rules.get("min_length")`
is truthy, the value is a string, and its length is below the bound.  A zero
`min_length` is falsy, so it disables the check. -/
def minLengthCheck (fieldName : String) (rules : PyDict) (value : PyValue) :
    Option FunctionError :=
  let minLength := pyGet rules "min_length" .none
  match value with
  | .str s =>
    if pyTruthy minLength ∧ pyLenLt s minLength then
      some ⟨"VALIDATION_ERROR",
        "Field \x27" ++ fieldName ++ "\x27 must be at least " ++
          pyStr minLength ++ " characters",
        .dict [("field", .str fieldName), ("min_length", minLength)]⟩
    else none
  | _ => none

/-- The `max_length` rule (lines 266-272). -/
def maxLengthCheck (fieldName : String) (rules : PyDict) (value : PyValue) :
    Option FunctionError :=
  let maxLength := pyGet rules "max_length" .none
  match value with
  | .str s =>
    if pyTruthy maxLength ∧ pyLenGt s maxLength then
      some ⟨"VALIDATION_ERROR",
        "Field \x27" ++ fieldName ++ "\x27 must be at most " ++
          pyStr maxLength ++ " characters",
        .dict [("field", .str fieldName), ("max_length", maxLength)]⟩
    else none
  | _ => none

/-- One iteration of the `validate_input` loop body for a single field: the
first raised error among `required`, then - only when the value is not `None` -
`type`, `min_length`, `max_length`, in source order. -/
def checkField (fieldName : String) (rules : PyDict) (value : PyValue) :
    Option FunctionError :=
  match requiredCheck fieldName rules value with
  | some e => some e
  | Option.none =>
    if value.isNone then none
    else
      match typeCheck fieldName rules value with
      | some e => some e
      | Option.none =>
        match minLengthCheck fieldName rules value with
        | some e => some e
        | Option.none => maxLengthCheck fieldName rules value

/-- `validate_input` (lines 228-272): iterate the schema's fields in
declaration order, raising the first violated rule's error; `none` means the
function returned without effect.  The schema maps each field name to its rule
dictionary. -/
def validate_input (inputData : PyDict) : List (String × PyDict) →
    Option FunctionError
  | [] => none
  | (fieldName, rules) :: rest =>
    match checkField fieldName rules (pyGet inputData fieldName .none) with
    | some e => some e
    | Option.none => validate_input inputData rest

/-! ## Execution engine (`execute_function`, `__init__.py` lines 275-382) -/

/-- `AuthContext` (`__init__.py` lines 20-28), built from `auth_data.get` with
the source's defaults; the fields carry whatever values the request held. -/
structure AuthContext where
  id : PyValue
  email : PyValue
  role : PyValue
  verified : PyValue
  metadata : PyValue

/-- The context handed to the handler (`FunctionContext`, lines 177-184).  The
`DbClient` is represented by the two values it is constructed from; the logger
is represented by the state-passing convention on log entries. -/
structure FunctionContext where
  auth : Option AuthContext
  env : PyValue
  alyxUrl : PyValue
  internalToken : PyValue

/-- The three ways a handler call can end: return a value, raise a
`FunctionError`, or raise any other exception (carried as `str(e)`). -/
inductive HandlerOutcome where
  | ok (output : PyValue)
  | raiseFunctionError (code message : String) (details : PyValue)
  | raiseOther (description : String)

/-- `FunctionDefinition` (`__init__.py` lines 196-202).  The handler is a pure
model of the Python callable: from its input and context it yields the log
entries it appended through the logger, in call order, and its outcome. -/
structure FunctionDefinition where
  handler : PyValue → FunctionContext → List LogEntry × HandlerOutcome
  input_schema : Option (List (String × PyDict))
  output_schema : Option (List (String × PyDict))

/-- `define_function` (lines 205-225). -/
def define_function (handler : PyValue → FunctionContext → List LogEntry × HandlerOutcome)
    (inputSchema outputSchema : Option (List (String × PyDict))) : FunctionDefinition :=
  ⟨handler, inputSchema, outputSchema⟩

/-- `request.get("input", an empty dict)` (lines 317, 320). -/
def requestInput (request : PyDict) : PyValue :=
  pyGet request "input" (.dict [])

/-- Context construction (lines 289-312).  These lines run before the `try`
block, so an `AttributeError` from `.get` on a malformed `context`/`auth`
value propagates out of `execute_function` (`Except.error`). -/
def buildContext (request : PyDict) : Except String FunctionContext := do
  let contextData := pyGet request "context" (.dict [])
  let authData ← pyGetItem contextData "auth" .none
  let auth ←
    if pyTruthy authData then
      match authData with
      | .dict kvs =>
        pure (some (⟨(List.lookup "id" kvs).getD (.str ""),
          (List.lookup "email" kvs).getD (.str ""),
          (List.lookup "role" kvs).getD .none,
          (List.lookup "verified" kvs).getD (.bool false),
          (List.lookup "metadata" kvs).getD .none⟩ : AuthContext))
      | other => throw (attrFaultMsg other)
    else pure none
  let alyxUrl ← pyGetItem contextData "alyx_url" (.str "")
  let internalToken ← pyGetItem contextData "internal_token" (.str "")
  let env ← pyGetItem contextData "env" (.dict [])
  pure ⟨auth, env, alyxUrl, internalToken⟩

/-- The validation step of `execute_function` (lines 314-317, with the
`except` clauses 340-382): `none` means proceed to the handler.  The schema is
consulted only when truthy (present and non-empty).  A `ValidationError` is a
`FunctionError`, so it lands in the `except FunctionError` branch; a non-dict
`input` makes `input_data.get` raise `AttributeError`, which lands in the
generic `except Exception` branch as `FUNCTION_ERROR`. -/
def validationStep (fd : FunctionDefinition) (input : PyValue) :
    Option (String × String × PyValue) :=
  match fd.input_schema with
  | Option.none => none
  | some schema =>
    if schema.isEmpty then none
    else
      match input with
      | .dict kvs =>
        match validate_input kvs schema with
        | some e => some (e.code, e.message, e.details)
        | Option.none => none
      | other => some ("FUNCTION_ERROR", attrFaultMsg other, .dict [])

/-- One log entry as serialised into the response (lines 328-336). -/
def logEntryJson (e : LogEntry) : PyValue :=
  .dict [("level", .str e.level), ("message", .str e.message),
    ("data", e.data), ("timestamp", .str e.timestamp)]

/-- The `logs` field of the response: every buffered entry, in order. -/
def logsJson (logs : List LogEntry) : PyValue :=
  .list (logs.map logEntryJson)

/-- The success response dictionary (lines 324-338), keys in source order. -/
def successResponse (requestId output : PyValue) (logs : List LogEntry)
    (durationMs : Int) : PyDict :=
  [("request_id", requestId), ("success", .bool true), ("output", output),
    ("logs", logsJson logs), ("duration_ms", .int durationMs)]

/-- The failure response dictionary (lines 342-360 and 364-382): both
`except` branches build this same shape, differing only in the error triple. -/
def failureResponse (requestId : PyValue) (code message : String)
    (details : PyValue) (logs : List LogEntry) (durationMs : Int) : PyDict :=
  [("request_id", requestId), ("success", .bool false),
    ("error", .dict [("code", .str code), ("message", .str message),
      ("details", details)]),
    ("logs", logsJson logs), ("duration_ms", .int durationMs)]

/-- `execute_function` (lines 275-382).  `durationMs` abstracts the two
`time.time()` readings.  The log buffer starts empty; when validation fails
the handler never ran, so the buffer is still empty.  A `FunctionError` from
the handler propagates its `code`/`message`/`details` verbatim; any other
exception becomes `FUNCTION_ERROR` with `str(e)` and empty details. -/
def execute_function (fd : FunctionDefinition) (request : PyDict)
    (durationMs : Int) : Except String PyDict :=
  match buildContext request with
  | .error e => .error e
  | .ok ctx =>
    let requestId := pyGet request "request_id" .none
    match validationStep fd (requestInput request) with
    | some (c, m, d) => .ok (failureResponse requestId c m d [] durationMs)
    | Option.none =>
      let run := fd.handler (requestInput request) ctx
      match run.2 with
      | .ok output => .ok (successResponse requestId output run.1 durationMs)
      | .raiseFunctionError c m d =>
        .ok (failureResponse requestId c m d run.1 durationMs)
      | .raiseOther desc =>
        .ok (failureResponse requestId "FUNCTION_ERROR" desc (.dict []) run.1 durationMs)

/-! ## Database facade (`CollectionClient.find`, `__init__.py` lines 99-120) -/

namespace CollectionClient

/-- One `filter=<key>:eq:<value>` query parameter (line 110); the value is
interpolated with f-string semantics (`pyStr`). -/
def filterParam (kv : String × PyValue) : String :=
  "filter=" ++ kv.1 ++ ":eq:" ++ pyStr kv.2

/-- The query parameters `find` accumulates (lines 107-116): the collection
first, then one filter parameter per key of a truthy `filter` dictionary in
iteration order, then `sort`, `limit`, `offset`, each appended only when
truthy (a `None`, empty-string or zero argument is skipped). -/
def find_params (collection : String) (filter : Option (List (String × PyValue)))
    (sort : Option String) (limit : Option Int) (offset : Option Int) :
    List String :=
  let params := ["collection=" ++ collection]
  let params := match filter with
    | some kvs => if kvs.isEmpty then params else params ++ kvs.map filterParam
    | Option.none => params
  let params := match sort with
    | some s => if s = "" then params else params ++ ["sort=" ++ s]
    | Option.none => params
  let params := match limit with
    | some n => if n = 0 then params else params ++ ["limit=" ++ toString n]
    | Option.none => params
  let params := match offset with
    | some n => if n = 0 then params else params ++ ["offset=" ++ toString n]
    | Option.none => params
  params

/-- The GET path `find` issues (line 118). -/
def find_path (collection : String) (filter : Option (List (String × PyValue)))
    (sort : Option String) (limit : Option Int) (offset : Option Int) : String :=
  "/internal/v1/db/query?" ++
    String.intercalate "&" (find_params collection filter sort limit offset)

/-- What `find` returns from the parsed JSON response (line 120):
`result.get("data", an empty list)`. -/
def find_data (result : PyDict) : PyValue :=
  pyGet result "data" (.list [])

end CollectionClient

/-! ## Loader and HTTP handler (`executor.py`) -/

/-- The two classes of loader failure `handle_invoke` distinguishes:
`FileNotFoundError` (no entry file, line 54) against everything else
(`ImportError`, the two `ValueError`s, or any exception raised while the
module body runs), which the generic `except Exception` turns into a 500. -/
inductive LoadError where
  | fileNotFound (msg : String)
  | other (msg : String)

/-- A module's `default` attribute, as `load_function` inspects it: absent, a
value of some other type, or a `FunctionDefinition`. -/
inductive ModuleExport where
  | functionDef (fd : FunctionDefinition)
  | notAFunctionDef

/-- A loaded Python module, reduced to what `load_function` reads off it. -/
structure PyModule where
  defaultExport : Option ModuleExport

/-- The function cache (`executor.py` line 29), keyed by function name. -/
abbrev FunctionCache := List (String × FunctionDefinition)

/-- What one call to `load_function` produces: its result, the cache
afterwards, and how many times it consulted storage (`find_function_entry`
plus module execution) - `0` on a cache hit. -/
structure LoadOutcome where
  result : Except LoadError FunctionDefinition
  cache : FunctionCache
  storageReads : Nat

/-- `load_function` (`executor.py` lines 47-76).  `storage` abstracts the
filesystem and the interpreter: `none` means `find_function_entry` found no
entry file; `some (.error m)` an import/execution fault; `some (.ok mod)` a
loaded module, whose `default` export is then checked.  On success the
definition is cached under `name`; a cache hit returns without touching
storage. -/
def load_function (storage : String → Option (Except String PyModule))
    (cache : FunctionCache) (name : String) : LoadOutcome :=
  match List.lookup name cache with
  | some fd => ⟨.ok fd, cache, 0⟩
  | Option.none =>
    match storage name with
    | Option.none =>
      ⟨.error (.fileNotFound ("Function \x27" ++ name ++ "\x27 not found")),
        cache, 1⟩
    | some (.error m) => ⟨.error (.other m), cache, 1⟩
    | some (.ok mod) =>
      match mod.defaultExport with
      | Option.none =>
        ⟨.error (.other ("Function \x27" ++ name ++
          "\x27 does not export a \x27default\x27 FunctionDefinition")), cache, 1⟩
      | some .notAFunctionDef =>
        ⟨.error (.other ("Function \x27" ++ name ++
          "\x27 default export is not a FunctionDefinition")), cache, 1⟩
      | some (.functionDef fd) => ⟨.ok fd, (name, fd) :: cache, 1⟩

/-- An HTTP response as `send_json_response` emits it: a status code and a
JSON body. -/
structure HttpResponse where
  status : Nat
  body : PyValue

/-- The body `handle_invoke` sends when the request carries no truthy
`function` field (lines 119-130). -/
def invalidRequestBody : PyValue :=
  .dict [("success", .bool false),
    ("error", .dict [("code", .str "INVALID_REQUEST"),
      ("message", .str "Function name is required")])]

/-- The 404 body for a `FileNotFoundError` (lines 138-148). -/
def functionNotFoundBody (msg : String) : PyValue :=
  .dict [("success", .bool false),
    ("error", .dict [("code", .str "FUNCTION_NOT_FOUND"), ("message", .str msg)])]

/-- The 500 body of the generic `except Exception` clause (lines 149-160). -/
def executorErrorBody (msg : String) : PyValue :=
  .dict [("success", .bool false),
    ("error", .dict [("code", .str "EXECUTOR_ERROR"), ("message", .str msg)])]

/-- The inbound `POST /invoke` body after reading the socket: either
`json.loads` failed (carrying `str(e)`) or it produced a request dictionary. -/
inductive InvokeBody where
  | malformed (errMsg : String)
  | parsed (request : PyDict)

/-- The message of the `TypeError` raised by `FUNCTIONS_DIR / name` when the
`function` field holds a truthy non-string; the exact interpreter wording is
immaterial to the handler, which only forwards `str(e)`. -/
def pathTypeFaultMsg (v : PyValue) : String :=
  "argument should be a str or an os.PathLike object where __fspath__ returns a str, not <class \x27" ++
    pyTypeName v ++ "\x27>"

/-- `RequestHandler.handle_invoke` (`executor.py` lines 111-160).  The only
request-structure check is `if not function_name:`; then the function is
loaded (404 on `FileNotFoundError`, 500 on any other loader fault) and
executed (an exception escaping `execute_function` is also caught as 500).
Returns the HTTP response and the cache afterwards. -/
def handle_invoke (storage : String → Option (Except String PyModule))
    (cache : FunctionCache) (body : InvokeBody) (durationMs : Int) :
    HttpResponse × FunctionCache :=
  match body with
  | .malformed e => (⟨500, executorErrorBody e⟩, cache)
  | .parsed request =>
    let functionName := pyGet request "function" .none
    if ¬ pyTruthy functionName then (⟨400, invalidRequestBody⟩, cache)
    else
      match functionName with
      | .str name =>
        let lo := load_function storage cache name
        match lo.result with
        | .ok fd =>
          match execute_function fd request durationMs with
          | .ok resp => (⟨200, .dict resp⟩, lo.cache)
          | .error msg => (⟨500, executorErrorBody msg⟩, lo.cache)
        | .error (.fileNotFound m) => (⟨404, functionNotFoundBody m⟩, lo.cache)
        | .error (.other m) => (⟨500, executorErrorBody m⟩, lo.cache)
      | other => (⟨500, executorErrorBody (pathTypeFaultMsg other)⟩, cache)

/-- `RequestHandler.handle_clear_cache` (`executor.py` lines 162-165): empties
the entire cache and reports `cache_cleared`. -/
def handle_clear_cache (cache : FunctionCache) : HttpResponse × FunctionCache :=
  (⟨200, .dict [("status", .str "cache_cleared")]⟩, [])

/-- Key presence in a response dictionary. -/
def hasKey (d : PyDict) (key : String) : Bool :=
  (List.lookup key d).isSome

/-- Key presence in a JSON body value (false for non-dictionaries). -/
def vHasKey (v : PyValue) (key : String) : Bool :=
  match v with
  | .dict kvs => (List.lookup key kvs).isSome
  | _ => false

/-! ## Spec-side characterisations and concrete fixtures -/

/-- Spec-side description of the sort segment: the `sort` query parameter,
present exactly when a (truthy) sort was supplied. -/
def specSortParams : Option String → List String
  | some s => if s = "" then [] else ["sort=" ++ s]
  | Option.none => []

/-- Spec-side description of the limit segment. -/
def specLimitParams : Option Int → List String
  | some n => if n = 0 then [] else ["limit=" ++ toString n]
  | Option.none => []

/-- Spec-side description of the offset segment. -/
def specOffsetParams : Option Int → List String
  | some n => if n = 0 then [] else ["offset=" ++ toString n]
  | Option.none => []

/-- A minimal concrete function definition: no schema, a handler that logs
nothing and returns `None`. -/
def sampleDefinition : FunctionDefinition :=
  ⟨fun _ _ => ([], .ok .none), Option.none, Option.none⟩

/-- A storage oracle on which every name loads `sampleDefinition`. -/
def sampleStorage : String → Option (Except String PyModule) :=
  fun _ => some (.ok ⟨some (.functionDef sampleDefinition)⟩)

/-- A storage oracle with no functions at all. -/
def emptyStorage : String → Option (Except String PyModule) :=
  fun _ => Option.none

/-- A handler that logs `info "x"` once and then raises a `FunctionError`. -/
def loggingFailingDefinition : FunctionDefinition :=
  ⟨fun _ _ => (Logger.info [] "x" .none "2024-01-01T00:00:00Z",
    .raiseFunctionError "E_TEST" "boom" .none), Option.none, Option.none⟩

/-- A handler that raises an unrecognised exception after logging once. -/
def faultingDefinition : FunctionDefinition :=
  ⟨fun _ _ => (Logger.warn [] "w" .none "2024-01-01T00:00:00Z",
    .raiseOther "division by zero"), Option.none, Option.none⟩

/-- A concrete request with only a `request_id`. -/
def sampleRequest : PyDict := [("request_id", .str "r1")]

/-- The context `buildContext` produces for a request with no `context`
field: unauthenticated, empty environment, empty URL and token. -/
def emptyContext : FunctionContext :=
  ⟨Option.none, .dict [], .str "", .str ""⟩

/-! ## Theorems -/

/-- `validate_input` is the first-hit scan of the per-field checks. -/
theorem validate_input_eq_findSome (input : PyDict)
    (schema : List (String × PyDict)) :
    validate_input input schema =
      schema.findSome? (fun fr => checkField fr.1 fr.2 (pyGet input fr.1 .none)) := by
  induction schema with
  | nil => rfl
  | cons hd tl ih =>
    obtain ⟨f, rules⟩ := hd
    simp only [validate_input, List.findSome?_cons]
    cases hc : checkField f rules (pyGet input f .none) <;> simp [hc, ih]

/-- Claim C2: for every schema and input, `validate_input` returns without
effect iff no rule of any field is violated, and it raises error `e` iff `e`
belongs to the first schema field, in declaration order, whose check is
violated (all earlier fields passing); within one field the rules are
consulted in the order `required`, then (for a non-`None` value) `type`,
`min_length`, `max_length`. -/
theorem claim_C2_first_violation (input : PyDict)
    (schema : List (String × PyDict)) :
    (validate_input input schema = none ↔
      ∀ fr ∈ schema, checkField fr.1 fr.2 (pyGet input fr.1 .none) = none) ∧
    (∀ e : FunctionError, validate_input input schema = some e ↔
      ∃ pre fr post, schema = pre ++ fr :: post ∧
        checkField fr.1 fr.2 (pyGet input fr.1 .none) = some e ∧
        ∀ fr2 ∈ pre, checkField fr2.1 fr2.2 (pyGet input fr2.1 .none) = none) ∧
    (∀ fieldName rules value e, requiredCheck fieldName rules value = some e →
      checkField fieldName rules value = some e) ∧
    (∀ fieldName rules value, requiredCheck fieldName rules value = none →
      value.isNone = false →
      checkField fieldName rules value =
        (typeCheck fieldName rules value <|>
          (minLengthCheck fieldName rules value <|>
            maxLengthCheck fieldName rules value))) := by
  refine ⟨?_, fun e => ?_, ?_, ?_⟩
  · rw [validate_input_eq_findSome]
    exact List.findSome?_eq_none_iff
  · rw [validate_input_eq_findSome]
    exact List.findSome?_eq_some_iff
  · intro fieldName rules value e hreq
    simp [checkField, hreq]
  · intro fieldName rules value hreq hnone
    simp only [checkField, hreq, hnone]
    cases ht : typeCheck fieldName rules value <;>
      cases hm : minLengthCheck fieldName rules value <;>
        simp [Option.orElse]

/-- Claim C9: a schema field of declared type `"number"` accepts a boolean
value, since in Python `bool` is a subclass of `int` and the `"number"` entry
of the type map is the pair `(int, float)`; in particular the input
`flag: true` passes the schema `flag: type "number"`. -/
theorem claim_C9_bool_is_number (fieldName : String) (rules : PyDict) (b : Bool)
    (h : pyGet rules "type" .none = .str "number") :
    typeCheck fieldName rules (.bool b) = none ∧
    validate_input [("flag", PyValue.bool true)]
      [("flag", [("type", PyValue.str "number")])] = none := by
  refine ⟨?_, rfl⟩
  simp [typeCheck, h, pyTruthy, typeMapHas, pyIsInstance]

theorem claim_C9_witness :
    typeCheck "flag" [("type", PyValue.str "number")] (.bool true) = none ∧
    validate_input [("flag", PyValue.bool true)]
      [("flag", [("type", PyValue.str "number")])] = none :=
  claim_C9_bool_is_number "flag" [("type", PyValue.str "number")] true rfl

/-- Claim C10: a zero-valued option is falsy and hence treated as not
supplied: `min_length: 0` and `max_length: 0` disable the respective length
check for every value, and `find` with `limit=0` or `offset=0` builds the same
query parameters as with the argument omitted. -/
theorem claim_C10_zero_disables (fieldName : String) (rules : PyDict)
    (value : PyValue) (collection : String)
    (filter : Option (List (String × PyValue))) (sort : Option String)
    (limit offset : Option Int)
    (hmin : pyGet rules "min_length" .none = .int 0)
    (hmax : pyGet rules "max_length" .none = .int 0) :
    minLengthCheck fieldName rules value = none ∧
    maxLengthCheck fieldName rules value = none ∧
    CollectionClient.find_params collection filter sort (some 0) offset =
      CollectionClient.find_params collection filter sort Option.none offset ∧
    CollectionClient.find_params collection filter sort limit (some 0) =
      CollectionClient.find_params collection filter sort limit Option.none := by
  refine ⟨?_, ?_, ?_, ?_⟩
  · cases value <;> simp [minLengthCheck, hmin, pyTruthy]
  · cases value <;> simp [maxLengthCheck, hmax, pyTruthy]
  · simp [CollectionClient.find_params]
  · simp [CollectionClient.find_params]

theorem claim_C10_witness :
    minLengthCheck "f" [("min_length", PyValue.int 0), ("max_length", PyValue.int 0)]
      (PyValue.str "abc") = none ∧
    maxLengthCheck "f" [("min_length", PyValue.int 0), ("max_length", PyValue.int 0)]
      (PyValue.str "abc") = none ∧
    CollectionClient.find_params "users" Option.none Option.none (some 0) Option.none =
      CollectionClient.find_params "users" Option.none Option.none Option.none Option.none ∧
    CollectionClient.find_params "users" Option.none Option.none Option.none (some 0) =
      CollectionClient.find_params "users" Option.none Option.none Option.none Option.none :=
  claim_C10_zero_disables "f"
    [("min_length", PyValue.int 0), ("max_length", PyValue.int 0)]
    (PyValue.str "abc") "users" Option.none Option.none Option.none Option.none rfl rfl

/-- A cache hit returns the cached definition without touching storage. -/
theorem load_function_cache_hit (storage : String → Option (Except String PyModule))
    (cache : FunctionCache) (name : String) (fd : FunctionDefinition)
    (h : List.lookup name cache = some fd) :
    load_function storage cache name = ⟨.ok fd, cache, 0⟩ := by
  unfold load_function
  rw [h]

/-- After a successful load the returned definition sits in the returned
cache under its name. -/
theorem load_function_ok_lookup (storage : String → Option (Except String PyModule))
    (cache : FunctionCache) (name : String) (fd : FunctionDefinition)
    (cache2 : FunctionCache) (k : Nat)
    (h : load_function storage cache name = ⟨.ok fd, cache2, k⟩) :
    List.lookup name cache2 = some fd := by
  unfold load_function at h
  cases hl : List.lookup name cache with
  | some fd0 =>
    rw [hl] at h
    simp only [LoadOutcome.mk.injEq, Except.ok.injEq] at h
    obtain ⟨he, hc, -⟩ := h
    rw [← hc, hl, he]
  | none =>
    rw [hl] at h
    cases hs : storage name with
    | none => rw [hs] at h; simp at h
    | some exm =>
      rw [hs] at h
      cases exm with
      | error m => simp at h
      | ok mod =>
        obtain ⟨de⟩ := mod
        cases de with
        | none => simp at h
        | some ex =>
          cases ex with
          | notAFunctionDef => simp at h
          | functionDef fd1 =>
            simp only [LoadOutcome.mk.injEq, Except.ok.injEq] at h
            obtain ⟨he, hc, -⟩ := h
            rw [← hc, he, List.lookup_cons_self]

/-- On a cache miss, storage is consulted exactly once, whatever it answers. -/
theorem load_function_miss_reads (storage : String → Option (Except String PyModule))
    (cache : FunctionCache) (name : String)
    (h : List.lookup name cache = none) :
    (load_function storage cache name).storageReads = 1 := by
  unfold load_function
  rw [h]
  cases storage name with
  | none => rfl
  | some exm =>
    cases exm with
    | error m => rfl
    | ok mod =>
      obtain ⟨de⟩ := mod
      cases de with
      | none => rfl
      | some ex => cases ex <;> rfl

/-- Claim C6: after a successful load of a name the next resolution of that
name returns the cached definition, leaves the cache unchanged and performs no
storage read (so two sequential calls return equal values); `clear()` empties
the entire cache - whatever it held - and the next resolution then performs a
fresh storage read. -/
theorem claim_C6_loader_idempotent (storage : String → Option (Except String PyModule))
    (cache : FunctionCache) (name : String) (fd : FunctionDefinition)
    (cache2 : FunctionCache) (k : Nat)
    (h : load_function storage cache name = ⟨.ok fd, cache2, k⟩) :
    load_function storage cache2 name = ⟨.ok fd, cache2, 0⟩ ∧
    (handle_clear_cache cache2).2 = [] ∧
    (load_function storage (handle_clear_cache cache2).2 name).storageReads = 1 :=
  ⟨load_function_cache_hit storage cache2 name fd
      (load_function_ok_lookup storage cache name fd cache2 k h),
    rfl,
    load_function_miss_reads storage [] name rfl⟩

theorem claim_C6_witness :
    load_function sampleStorage [("f", sampleDefinition)] "f" =
      ⟨.ok sampleDefinition, [("f", sampleDefinition)], 0⟩ ∧
    (handle_clear_cache [("f", sampleDefinition)]).2 = [] ∧
    (load_function sampleStorage (handle_clear_cache [("f", sampleDefinition)]).2
      "f").storageReads = 1 :=
  claim_C6_loader_idempotent sampleStorage [] "f" sampleDefinition
    [("f", sampleDefinition)] 1 rfl

/-- Claim C7: the `find` query parameter list is exactly the collection
parameter first, then one `filter=<key>:eq:<value>` parameter per supplied
filter key in the mapping's iteration order, then the sort, limit and offset
parameters, each of which is absent whenever its argument was not supplied;
and `find` returns the `data` entry of the parsed response, or the empty list
when the `data` key is absent. -/
theorem claim_C7_find_query (collection : String)
    (filter : Option (List (String × PyValue))) (sort : Option String)
    (limit offset : Option Int) (result : PyDict) :
    CollectionClient.find_params collection filter sort limit offset =
      ("collection=" ++ collection) ::
        ((filter.getD []).map CollectionClient.filterParam ++
          (specSortParams sort ++ (specLimitParams limit ++ specOffsetParams offset))) ∧
    specSortParams Option.none = [] ∧
    specLimitParams Option.none = [] ∧
    specOffsetParams Option.none = [] ∧
    (List.lookup "data" result = none → CollectionClient.find_data result = .list []) ∧
    (∀ v, List.lookup "data" result = some v → CollectionClient.find_data result = v) := by
  refine ⟨?_, rfl, rfl, rfl, ?_, ?_⟩
  · cases filter with
    | none =>
      cases sort <;> cases limit <;> cases offset <;>
        simp [CollectionClient.find_params, specSortParams, specLimitParams,
          specOffsetParams] <;> split_ifs <;> simp
    | some kvs =>
      cases kvs <;> cases sort <;> cases limit <;> cases offset <;>
        simp [CollectionClient.find_params, specSortParams, specLimitParams,
          specOffsetParams] <;> split_ifs <;> simp_all
  · intro h
    simp [CollectionClient.find_data, pyGet, h]
  · intro v h
    simp [CollectionClient.find_data, pyGet, h]

/-- When the context builds and validation passes, `execute_function` is
determined by the handler's outcome. -/
theorem execute_function_run_eq (fd : FunctionDefinition) (request : PyDict)
    (durationMs : Int) (ctx : FunctionContext)
    (hctx : buildContext request = .ok ctx)
    (hval : validationStep fd (requestInput request) = none) :
    execute_function fd request durationMs =
      match (fd.handler (requestInput request) ctx).2 with
      | .ok output =>
        .ok (successResponse (pyGet request "request_id" .none) output
          (fd.handler (requestInput request) ctx).1 durationMs)
      | .raiseFunctionError c m d =>
        .ok (failureResponse (pyGet request "request_id" .none) c m d
          (fd.handler (requestInput request) ctx).1 durationMs)
      | .raiseOther desc =>
        .ok (failureResponse (pyGet request "request_id" .none) "FUNCTION_ERROR"
          desc (.dict []) (fd.handler (requestInput request) ctx).1 durationMs) := by
  unfold execute_function
  rw [hctx]
  simp only [hval]

/-- Every `.ok` result of `execute_function` is a success or failure response
built around the request's own `request_id`. -/
theorem execute_function_ok_shape (fd : FunctionDefinition) (request : PyDict)
    (durationMs : Int) (resp : PyDict)
    (h : execute_function fd request durationMs = .ok resp) :
    (∃ out logs, resp =
      successResponse (pyGet request "request_id" .none) out logs durationMs) ∨
    (∃ c m d logs, resp =
      failureResponse (pyGet request "request_id" .none) c m d logs durationMs) := by
  unfold execute_function at h
  cases hctx : buildContext request with
  | error e => rw [hctx] at h; simp at h
  | ok ctx =>
    rw [hctx] at h
    cases hval : validationStep fd (requestInput request) with
    | some cmd =>
      obtain ⟨c, m, d⟩ := cmd
      simp only [hval, Except.ok.injEq] at h
      exact .inr ⟨c, m, d, [], h.symm⟩
    | none =>
      simp only [hval] at h
      cases hout : (fd.handler (requestInput request) ctx).2 with
      | ok output =>
        simp only [hout, Except.ok.injEq] at h
        exact .inl ⟨output, _, h.symm⟩
      | raiseFunctionError c m d =>
        simp only [hout, Except.ok.injEq] at h
        exact .inr ⟨c, m, d, _, h.symm⟩
      | raiseOther desc =>
        simp only [hout, Except.ok.injEq] at h
        exact .inr ⟨"FUNCTION_ERROR", desc, .dict [], _, h.symm⟩

/-- Claim C1: a handler that raises a `FunctionError` yields a `success=false`
response whose error `code`, `message` and `details` are the raised error's
fields verbatim; a handler that raises any other exception yields the error
`code "FUNCTION_ERROR"`, `message` the fault's description, `details` an
empty dictionary. -/
theorem claim_C1_handler_errors (fd : FunctionDefinition) (request : PyDict)
    (durationMs : Int) (ctx : FunctionContext)
    (hctx : buildContext request = .ok ctx)
    (hval : validationStep fd (requestInput request) = none) :
    (∀ c m d, (fd.handler (requestInput request) ctx).2 = .raiseFunctionError c m d →
      ∃ resp, execute_function fd request durationMs = .ok resp ∧
        List.lookup "success" resp = some (.bool false) ∧
        List.lookup "error" resp =
          some (.dict [("code", .str c), ("message", .str m), ("details", d)])) ∧
    (∀ desc, (fd.handler (requestInput request) ctx).2 = .raiseOther desc →
      ∃ resp, execute_function fd request durationMs = .ok resp ∧
        List.lookup "success" resp = some (.bool false) ∧
        List.lookup "error" resp =
          some (.dict [("code", .str "FUNCTION_ERROR"), ("message", .str desc),
            ("details", .dict [])])) := by
  constructor
  · intro c m d hout
    rw [execute_function_run_eq fd request durationMs ctx hctx hval, hout]
    exact ⟨_, rfl, rfl, rfl⟩
  · intro desc hout
    rw [execute_function_run_eq fd request durationMs ctx hctx hval, hout]
    exact ⟨_, rfl, rfl, rfl⟩

theorem claim_C1_witness :
    (∃ resp, execute_function loggingFailingDefinition sampleRequest 0 = .ok resp ∧
      List.lookup "success" resp = some (.bool false) ∧
      List.lookup "error" resp =
        some (.dict [("code", .str "E_TEST"), ("message", .str "boom"),
          ("details", PyValue.none)])) ∧
    (∃ resp, execute_function faultingDefinition sampleRequest 0 = .ok resp ∧
      List.lookup "success" resp = some (.bool false) ∧
      List.lookup "error" resp =
        some (.dict [("code", .str "FUNCTION_ERROR"),
          ("message", .str "division by zero"), ("details", .dict [])])) :=
  ⟨(claim_C1_handler_errors loggingFailingDefinition sampleRequest 0 emptyContext
      rfl rfl).1 "E_TEST" "boom" PyValue.none rfl,
    (claim_C1_handler_errors faultingDefinition sampleRequest 0 emptyContext
      rfl rfl).2 "division by zero" rfl⟩

/-- Claim C3: the `logs` field of the response is exactly the rendering of the
entries the handler appended through the logger during this invocation, in
call order, whatever the outcome; in particular a handler that logs once and
then raises a `FunctionError` yields `success=false` with exactly that one
entry. -/
theorem claim_C3_logs_preserved (fd : FunctionDefinition) (request : PyDict)
    (durationMs : Int) (ctx : FunctionContext)
    (hctx : buildContext request = .ok ctx)
    (hval : validationStep fd (requestInput request) = none) :
    (∃ resp, execute_function fd request durationMs = .ok resp ∧
      List.lookup "logs" resp =
        some (logsJson (fd.handler (requestInput request) ctx).1)) ∧
    (∀ c m d, (fd.handler (requestInput request) ctx).2 = .raiseFunctionError c m d →
      ∃ resp, execute_function fd request durationMs = .ok resp ∧
        List.lookup "success" resp = some (.bool false) ∧
        List.lookup "logs" resp =
          some (logsJson (fd.handler (requestInput request) ctx).1)) := by
  constructor
  · rw [execute_function_run_eq fd request durationMs ctx hctx hval]
    cases (fd.handler (requestInput request) ctx).2 with
    | ok output => exact ⟨_, rfl, rfl⟩
    | raiseFunctionError c m d => exact ⟨_, rfl, rfl⟩
    | raiseOther desc => exact ⟨_, rfl, rfl⟩
  · intro c m d hout
    rw [execute_function_run_eq fd request durationMs ctx hctx hval, hout]
    exact ⟨_, rfl, rfl, rfl⟩

theorem claim_C3_witness :
    (∃ resp, execute_function loggingFailingDefinition sampleRequest 0 = .ok resp ∧
      List.lookup "logs" resp = some (.list [.dict [("level", .str "info"),
        ("message", .str "x"), ("data", .dict []),
        ("timestamp", .str "2024-01-01T00:00:00Z")]])) ∧
    (∃ resp, execute_function loggingFailingDefinition sampleRequest 0 = .ok resp ∧
      List.lookup "success" resp = some (.bool false) ∧
      List.lookup "logs" resp = some (.list [.dict [("level", .str "info"),
        ("message", .str "x"), ("data", .dict []),
        ("timestamp", .str "2024-01-01T00:00:00Z")]])) :=
  ⟨(claim_C3_logs_preserved loggingFailingDefinition sampleRequest 0 emptyContext
      rfl rfl).1,
    (claim_C3_logs_preserved loggingFailingDefinition sampleRequest 0 emptyContext
      rfl rfl).2 "E_TEST" "boom" PyValue.none rfl⟩

/-- Claim C8: every response `execute_function` returns contains the `output`
key iff `success` is `true` and the `error` key iff `success` is `false`;
exactly one of the two keys is present. -/
theorem claim_C8_output_xor_error (fd : FunctionDefinition) (request : PyDict)
    (durationMs : Int) (resp : PyDict)
    (h : execute_function fd request durationMs = .ok resp) :
    (hasKey resp "output" = true ↔ List.lookup "success" resp = some (.bool true)) ∧
    (hasKey resp "error" = true ↔ List.lookup "success" resp = some (.bool false)) ∧
    hasKey resp "error" = !hasKey resp "output" := by
  rcases execute_function_ok_shape fd request durationMs resp h with
    ⟨out, logs, rfl⟩ | ⟨c, m, d, logs, rfl⟩ <;>
      refine ⟨?_, ?_, rfl⟩ <;>
        simp [hasKey, successResponse, failureResponse, List.lookup]

theorem claim_C8_witness :
    (hasKey (successResponse (PyValue.str "r1") PyValue.none [] 0) "output" = true ↔
      List.lookup "success" (successResponse (PyValue.str "r1") PyValue.none [] 0) =
        some (.bool true)) ∧
    (hasKey (successResponse (PyValue.str "r1") PyValue.none [] 0) "error" = true ↔
      List.lookup "success" (successResponse (PyValue.str "r1") PyValue.none [] 0) =
        some (.bool false)) ∧
    hasKey (successResponse (PyValue.str "r1") PyValue.none [] 0) "error" =
      !hasKey (successResponse (PyValue.str "r1") PyValue.none [] 0) "output" :=
  claim_C8_output_xor_error sampleDefinition sampleRequest 0
    (successResponse (PyValue.str "r1") PyValue.none [] 0) rfl

/-- Claim C4, counterexample to the claim as stated: when the body cannot be
parsed, the listener's 500 response carries no `request_id` field at all - in
particular it is not the literal string `"unknown"`. -/
theorem claim_C4_counterexample :
    (handle_invoke emptyStorage []
      (.malformed "Expecting value: line 1 column 1 (char 0)") 0).1.status = 500 ∧
    vHasKey (handle_invoke emptyStorage []
      (.malformed "Expecting value: line 1 column 1 (char 0)") 0).1.body
      "request_id" = false :=
  ⟨rfl, rfl⟩

/-- Claim C4, amended: `execute_function` echoes the caller-supplied
`request_id` verbatim (null when absent) in every response it produces,
success or failure; but the listener-built failure responses - malformed body,
missing function name, load failure, executor fault - contain no `request_id`
field at all, and no path produces the literal string `"unknown"`. -/
theorem claim_C4_request_id_echo (fd : FunctionDefinition) (request : PyDict)
    (durationMs : Int) (resp : PyDict)
    (h : execute_function fd request durationMs = .ok resp) :
    List.lookup "request_id" resp = some (pyGet request "request_id" .none) ∧
    (∀ storage cache msg d2,
      vHasKey (handle_invoke storage cache (.malformed msg) d2).1.body
        "request_id" = false) ∧
    (∀ msg, vHasKey invalidRequestBody "request_id" = false ∧
      vHasKey (functionNotFoundBody msg) "request_id" = false ∧
      vHasKey (executorErrorBody msg) "request_id" = false) := by
  refine ⟨?_, fun storage cache msg d2 => rfl, fun msg => ⟨rfl, rfl, rfl⟩⟩
  rcases execute_function_ok_shape fd request durationMs resp h with
    ⟨out, logs, rfl⟩ | ⟨c, m, d, logs, rfl⟩ <;> rfl

theorem claim_C4_witness :
    List.lookup "request_id" (successResponse (PyValue.str "r1") PyValue.none [] 0) =
      some (pyGet sampleRequest "request_id" PyValue.none) ∧
    (∀ storage cache msg d2,
      vHasKey (handle_invoke storage cache (.malformed msg) d2).1.body
        "request_id" = false) ∧
    (∀ msg, vHasKey invalidRequestBody "request_id" = false ∧
      vHasKey (functionNotFoundBody msg) "request_id" = false ∧
      vHasKey (executorErrorBody msg) "request_id" = false) :=
  claim_C4_request_id_echo sampleDefinition sampleRequest 0
    (successResponse (PyValue.str "r1") PyValue.none [] 0) rfl

/-- Claim C5, counterexample to the claim as stated: a request that omits both
`request_id` and `input` but names a function is not rejected as
structurally invalid - the listener attempts the load and answers with the
loader's own 404, not a request-structure error. -/
theorem claim_C5_counterexample :
    (handle_invoke emptyStorage [] (.parsed [("function", PyValue.str "ghost")]) 0).1 =
      ⟨404, functionNotFoundBody "Function \x27ghost\x27 not found"⟩ ∧
    ¬ (handle_invoke emptyStorage []
        (.parsed [("function", PyValue.str "ghost")]) 0).1.status = 400 :=
  ⟨rfl, by decide⟩

/-- Claim C5, amended: the only request-structure check the listener performs
is on the `function` field: when it is missing or falsy the fixed 400
`INVALID_REQUEST` response is returned whatever the loader holds (so no load
is attempted); a request whose `function` names an unknown function proceeds
to the load and gets the loader's 404, even with `request_id` and `input`
missing. -/
theorem claim_C5_structure_gate (request : PyDict)
    (storage : String → Option (Except String PyModule)) (cache : FunctionCache)
    (durationMs : Int) (name : String) :
    (pyTruthy (pyGet request "function" .none) = false →
      handle_invoke storage cache (.parsed request) durationMs =
        (⟨400, invalidRequestBody⟩, cache)) ∧
    (pyGet request "function" .none = .str name → name ≠ "" →
      List.lookup name cache = none → storage name = Option.none →
      (handle_invoke storage cache (.parsed request) durationMs).1 =
        ⟨404, functionNotFoundBody ("Function \x27" ++ name ++ "\x27 not found")⟩) := by
  constructor
  · intro hfn
    unfold handle_invoke
    simp [hfn]
  · intro hfn hname hlk hst
    simp only [handle_invoke, hfn, load_function, hlk, hst, pyTruthy]
    simp [hname]
